import Mathlib

set_option maxHeartbeats 1000000

/-!
Verification development for the request-decorator pipeline of
src/backend/globaleaks/rest/decorators.py.

The decorators are embedded as state-transforming functions on a World record
holding the mutable per-request and process state touched by the code: the
session (mutated in place by the rate limiter), the cache store, the response
content-type header slot, and the outcome of the external endpoint-refresh
call.  Each wrapper additionally records an Event marking the point where its
check or side effect runs; the event log is pure instrumentation used to state
ordering properties and changes nothing else.

Machine arithmetic: times are modelled as rationals on one shared timeline
(datetime values and their float timestamps); request counters are naturals.
-/

/-- A Python value as far as the decorators inspect it: the cache layer
branches on isinstance of dict or list and serializes those to JSON. -/
inductive PyValue where
  | dict (entries : List (String × PyValue))
  | list (items : List PyValue)
  | str (s : String)
  | int (n : Int)

mutual

/-- Modelled from the spec: the canonical JSON encoding produced by the
external json.dumps with the JSONEncoder of globaleaks.utils.json, which is
not under src.  Only its existence and determinism matter to the claims. -/
def jsonDumps : PyValue → String
  | .dict es => "\x7b" ++ jsonDumpsEntries es ++ "\x7d"
  | .list items => "[" ++ jsonDumpsItems items ++ "]"
  | .str s => "\"" ++ s ++ "\""
  | .int n => toString n

/-- Serialization of the entries of a JSON object, comma separated. -/
def jsonDumpsEntries : List (String × PyValue) → String
  | [] => ""
  | (k, v) :: rest =>
    "\"" ++ k ++ "\": " ++ jsonDumps v ++
      (if rest.isEmpty then "" else ", ") ++ jsonDumpsEntries rest

/-- Serialization of the items of a JSON array, comma separated. -/
def jsonDumpsItems : List PyValue → String
  | [] => ""
  | v :: rest =>
    jsonDumps v ++ (if rest.isEmpty then "" else ", ") ++ jsonDumpsItems rest

end

/-- The isinstance check of line 71: is the handler result a dict or a list. -/
def isDictOrList : PyValue → Bool
  | .dict _ => true
  | .list _ => true
  | _ => false

/-- The session object: tenant id, role string and the rate-limit counters
that decorator_rate_limit mutates in place. -/
structure Session where
  tid : Nat
  user_role : String
  ratelimit_time : ℚ
  ratelimit_count : Nat
deriving DecidableEq, Repr

/-- The immutable request descriptor fields read by the decorators. -/
structure Request where
  tid : Nat
  path : String
  language : String
  uri : String
deriving DecidableEq, Repr

/-- Per-request immutable context: the request, the truthiness of self.token
and the current time returned by datetime_now at the single point where the
rate limiter samples it. -/
structure Ctx where
  request : Request
  token : Bool
  now : ℚ
deriving DecidableEq, Repr

/-- Instrumentation events marking where each check or side effect runs. -/
inductive Event where
  | rateLimit
  | tokenCheck
  | authCheck
  | cacheLookup
  | cacheStore
  | invalidate
  | refresh
  | handlerRun
deriving DecidableEq, Repr

/-- Errors observable from the pipeline: the two error classes raised by the
decorators themselves, and a generic raised exception standing for anything a
wrapped handler or external call may raise. -/
inductive GLErr where
  | NotAuthenticated
  | InternalServerError (msg : String)
  | raised (msg : String)
deriving DecidableEq, Repr

/-- A cache key: (tenant id, path, language). -/
abbrev CacheKey := Nat × String × String

/-- The cache backing store as an association list from keys to
(content-type, body) entries. -/
abbrev CacheStore := List (CacheKey × (String × PyValue))

namespace Cache

/-- Modelled from the spec: the cache store get operation of the external
globaleaks.rest.cache module (section 6): get(tenant, path, language)
returns the stored (content_type, body) entry when present. -/
def get (st : CacheStore) (tid : Nat) (path language : String) :
    Option (String × PyValue) :=
  (st.find? (fun e => e.1 == (tid, path, language))).map (fun e => e.2)

/-- Modelled from the spec: the cache store set operation (section 6):
set(tenant, path, language, content_type, body) stores the entry under the
key and returns the stored entry. -/
def set (st : CacheStore) (tid : Nat) (path language : String)
    (ct : String) (body : PyValue) : (String × PyValue) × CacheStore :=
  ((ct, body),
    ((tid, path, language), (ct, body)) ::
      st.filter (fun e => !(e.1 == (tid, path, language))))

/-- Modelled from the spec: the cache store invalidate operation (section 6):
invalidate(tenant) drops every entry of that tenant, all paths and
languages. -/
def invalidate (st : CacheStore) (tid : Nat) : CacheStore :=
  st.filter (fun e => !(e.1.1 == tid))

end Cache

/-- The mutable state a request runs against: the session, the cache store,
the single content-type slot of the response headers (Twisted headers are
case-insensitive, so one canonical slot), the behaviour of the external
endpoint-refresh call at its call site (none = returns, some msg = raises),
and the instrumentation event log. -/
structure World where
  session : Option Session
  cache : CacheStore
  respContentType : Option String
  refreshOutcome : Option String
  events : List Event

/-- Append an instrumentation event to the log. -/
def log (w : World) (e : Event) : World :=
  { w with events := w.events ++ [e] }

/-- A wrapped method body: from the current world to an outcome (a returned
value or a raised error) and the updated world. -/
abbrev M := World → Except GLErr PyValue × World

/-- decorator_rate_limit (decorators.py lines 14-32): when a session exists
and its role is whistleblower, lazily reset the window when more than 30
seconds have passed, increment the counter, and raise NotAuthenticated when
count divided by the clamped elapsed period exceeds 5; otherwise call the
wrapped function. -/
def decorator_rate_limit (f : M) (ctx : Ctx) : M := fun w =>
  let w := log w .rateLimit
  match w.session with
  | some s =>
    if s.user_role = "whistleblower" then
      let now := ctx.now
      let s :=
        if now > s.ratelimit_time + 30 then
          { s with ratelimit_time := now, ratelimit_count := 0 }
        else s
      let s := { s with ratelimit_count := s.ratelimit_count + 1 }
      let period : ℚ := max (now - s.ratelimit_time) 1
      let w := { w with session := some s }
      if ((s.ratelimit_count : ℚ) / period) > 5 then
        (.error .NotAuthenticated, w)
      else f w
    else f w
  | none => f w

/-- The bytes endswith test of Python, modelled on the character list of the
string. -/
def bytesEndsWith (s suffix : String) : Bool :=
  suffix.data.isSuffixOf s.data

/-- decorator_require_token (decorators.py lines 36-44): raise an
InternalServerError token failure when there is no session, the request uri
does not end in /api/token and no token is present; otherwise call the
wrapped function. -/
def decorator_require_token (f : M) (ctx : Ctx) : M := fun w =>
  let w := log w .tokenCheck
  if w.session.isNone && !(bytesEndsWith ctx.request.uri "/api/token") && !ctx.token then
    (.error (.InternalServerError "TokenFailure: Missing or invalid token"), w)
  else f w

/-- decorator_authentication (decorators.py lines 47-60): permit the call
when the roles set contains the sentinel any, or the session exists, belongs
to the tenant of the request, and either the set contains user with a staff
role on the session or the session role is directly in the set; otherwise
raise NotAuthenticated. -/
def decorator_authentication (f : M) (roles : List String) (ctx : Ctx) : M := fun w =>
  let w := log w .authCheck
  let permitted : Bool :=
    roles.contains "any" ||
      (match w.session with
       | some s =>
         decide (s.tid = ctx.request.tid) &&
           ((roles.contains "user" &&
             (["admin", "receiver", "custodian"] : List String).contains s.user_role) ||
            roles.contains s.user_role)
       | none => false)
  if permitted then f w else (.error .NotAuthenticated, w)

/-- decorator_cache_get (decorators.py lines 63-87): look the request key up
in the cache; on a hit set the response content-type from the stored entry
and return the stored body; on a miss run the wrapped function, serialize a
dict or list result to JSON setting the content-type header, store the
resulting entry under the key and return the stored body; an error from the
wrapped function propagates and nothing is stored. -/
def decorator_cache_get (f : M) (ctx : Ctx) : M := fun w =>
  let w := log w .cacheLookup
  match Cache.get w.cache ctx.request.tid ctx.request.path ctx.request.language with
  | none =>
    match f w with
    | (.ok data, w) =>
      let (data, w) :=
        if isDictOrList data then
          (PyValue.str (jsonDumps data), { w with respContentType := some "application/json" })
        else (data, w)
      let c := w.respContentType.getD "application/json"
      let r := Cache.set w.cache ctx.request.tid ctx.request.path ctx.request.language c data
      (.ok r.1.2, log { w with cache := r.2 } .cacheStore)
    | (.error e, w) => (.error e, w)
  | some c =>
    let w := { w with respContentType := some c.1 }
    (.ok c.2, w)

/-- decorator_cache_invalidate (decorators.py lines 90-98): when the handler
attribute invalidate_cache is set, invalidate the whole cache of the tenant
of the request, then call the wrapped function. -/
def decorator_cache_invalidate (invalidate_cache : Bool) (f : M) (ctx : Ctx) : M := fun w =>
  let w :=
    if invalidate_cache then
      log { w with cache := Cache.invalidate w.cache ctx.request.tid } .invalidate
    else w
  f w

/-- decorator_refresh_connection_endpoints (decorators.py lines 101-112):
run the wrapped function; when it returns a value, call the external
endpoint-refresh service and return the value, so an exception raised by
that call inside the result callback turns the outcome into that error; an
error from the wrapped function propagates without any refresh. -/
def decorator_refresh_connection_endpoints (f : M) : M := fun w =>
  match f w with
  | (.ok data, w) =>
    let w := log w .refresh
    match w.refreshOutcome with
    | none => (.ok data, w)
    | some msg => (.error (.raised msg), w)
  | (.error e, w) => (.error e, w)

/-- The check_roles attribute of a handler: a single role string or a set of
role strings. -/
inductive CheckRoles where
  | single (value : String)
  | set (values : List String)
deriving DecidableEq, Repr

/-- The normalization of decorators.py lines 116-118: a single string becomes
a one-element set. -/
def normalizeRoles : CheckRoles → List String
  | .single value => [value]
  | .set values => values

/-- The static metadata of a handler class read by decorate_method. -/
structure HandlerMeta where
  check_roles : CheckRoles
  cache_resource : Bool
  invalidate_cache : Bool
  refresh_connection_endpoints : Bool
  require_token : Bool
deriving DecidableEq, Repr

/-- decorate_method (decorators.py lines 115-139): build the composed
pipeline for one handler method.  When the api cache is enabled, a GET
method with cache_resource gets the cache layer, and a non GET method gets
the invalidation and refresh layers per its flags; authentication is always
applied next; methods other than get and options, or handlers with
require_token, get the token gate and, outermost, the rate limiter. -/
def decorate_method (enable_api_cache : Bool) (h : HandlerMeta) (method : String)
    (raw : M) (ctx : Ctx) : M :=
  let value := normalizeRoles h.check_roles
  let f := raw
  let f :=
    if enable_api_cache then
      if method = "get" then
        if h.cache_resource then decorator_cache_get f ctx else f
      else
        let f :=
          if h.invalidate_cache then
            decorator_cache_invalidate h.invalidate_cache f ctx
          else f
        if h.refresh_connection_endpoints then
          decorator_refresh_connection_endpoints f
        else f
    else f
  let f := decorator_authentication f value ctx
  if !((["get", "options"] : List String).contains method) || h.require_token then
    decorator_rate_limit (decorator_require_token f ctx) ctx
  else f

/-- A probe handler returning a fixed value and logging that it ran. -/
def rawOk (v : PyValue) : M := fun w => (.ok v, log w .handlerRun)

/-- A probe handler raising a fixed error and logging that it ran. -/
def rawErr (msg : String) : M := fun w => (.error (.raised msg), log w .handlerRun)

@[simp] theorem log_session (w : World) (e : Event) : (log w e).session = w.session := rfl

@[simp] theorem log_cache (w : World) (e : Event) : (log w e).cache = w.cache := rfl

@[simp] theorem log_respContentType (w : World) (e : Event) :
    (log w e).respContentType = w.respContentType := rfl

@[simp] theorem log_refreshOutcome (w : World) (e : Event) :
    (log w e).refreshOutcome = w.refreshOutcome := rfl

@[simp] theorem log_events (w : World) (e : Event) : (log w e).events = w.events ++ [e] := rfl

/-- The authorization condition exactly as the spec and the claim word it,
to be compared with the condition evaluated by the source. -/
def authorizedSpec (roles : List String) (ctx : Ctx) (w : World) : Prop :=
  "any" ∈ roles ∨
    ∃ s, w.session = some s ∧ s.tid = ctx.request.tid ∧
      (("user" ∈ roles ∧
         s.user_role ∈ (["admin", "receiver", "custodian"] : List String)) ∨
       s.user_role ∈ roles)

/-- The boolean evaluated by decorator_authentication agrees with the
condition of the spec. -/
theorem authorized_bool_eq (roles : List String) (ctx : Ctx) (w : World) :
    (roles.contains "any" ||
      (match w.session with
       | some s =>
         decide (s.tid = ctx.request.tid) &&
           ((roles.contains "user" &&
             (["admin", "receiver", "custodian"] : List String).contains s.user_role) ||
            roles.contains s.user_role)
       | none => false)) = true ↔ authorizedSpec roles ctx w := by
  cases hs : w.session with
  | none => simp [authorizedSpec, hs]
  | some s => simp [authorizedSpec, hs]

/-- C4: the authorization layer calls the wrapped handler exactly when the
allowed-role set contains the sentinel any, or a session exists whose tenant
id equals the tenant id of the request and whose role is allowed by the set
(directly, or through the user marker for the staff roles admin, receiver
and custodian); in every other case, including every request with no
session and no any sentinel, it raises NotAuthenticated without invoking
the handler. -/
theorem c4_decorator_authentication_correct (f : M) (roles : List String)
    (ctx : Ctx) (w : World) :
    (authorizedSpec roles ctx w →
      decorator_authentication f roles ctx w = f (log w .authCheck)) ∧
    (¬ authorizedSpec roles ctx w →
      decorator_authentication f roles ctx w =
        (.error .NotAuthenticated, log w .authCheck)) := by
  have hb := authorized_bool_eq roles ctx w
  constructor
  · intro h
    simp only [decorator_authentication, log_session]
    rw [if_pos (hb.mpr h)]
  · intro h
    simp only [decorator_authentication, log_session]
    rw [if_neg (fun hh => h (hb.mp hh))]

/-- A concrete request used by the witnesses. -/
def req0 : Request :=
  { tid := 1, path := "/public", language := "en", uri := "https://x/public" }

/-- A concrete context used by the witnesses. -/
def ctx0 : Ctx := { request := req0, token := false, now := 0 }

/-- A concrete staff session used by the witnesses. -/
def sAdmin : Session :=
  { tid := 1, user_role := "admin", ratelimit_time := 0, ratelimit_count := 0 }

/-- A concrete world with a staff session used by the witnesses. -/
def w0 : World :=
  { session := some sAdmin, cache := [], respContentType := none,
    refreshOutcome := none, events := [] }

/-- A concrete world with no session used by the witnesses. -/
def wNone : World := { w0 with session := none }

/-- Witness for C4: a concrete admin session on a handler allowing admin is
let through to the handler, and a concrete sessionless request on the same
handler is rejected with NotAuthenticated. -/
theorem c4_witness :
    decorator_authentication (rawOk (.str "x")) ["admin"] ctx0 w0 =
      rawOk (.str "x") (log w0 .authCheck) ∧
    decorator_authentication (rawOk (.str "x")) ["admin"] ctx0 wNone =
      (.error .NotAuthenticated, log wNone .authCheck) := by
  constructor
  · exact (c4_decorator_authentication_correct (rawOk (.str "x")) ["admin"] ctx0 w0).1
      (Or.inr ⟨sAdmin, rfl, rfl, Or.inr (by simp [sAdmin])⟩)
  · exact (c4_decorator_authentication_correct (rawOk (.str "x")) ["admin"] ctx0 wNone).2
      (by simp [authorizedSpec, wNone, w0])

/-- The rejection condition of the token gate exactly as the claim words it:
no active session, the uri does not target the token issuance endpoint, and
no proof of work token is present. -/
def tokenRejectSpec (ctx : Ctx) (w : World) : Prop :=
  w.session = none ∧ bytesEndsWith ctx.request.uri "/api/token" = false ∧ ctx.token = false

/-- The boolean evaluated by decorator_require_token agrees with the reject
condition of the spec. -/
theorem tokenReject_bool_eq (ctx : Ctx) (w : World) :
    (w.session.isNone && !(bytesEndsWith ctx.request.uri "/api/token") && !ctx.token) = true ↔
      tokenRejectSpec ctx w := by
  simp [tokenRejectSpec, Option.isNone_iff_eq_none, and_assoc]

/-- C7: the token gate raises the InternalServerError token failure without
invoking the handler exactly when the request has no active session, its uri
does not target the token issuance endpoint and no proof of work token is
present; with an active session, or a token, or on the token issuance path,
the wrapped handler is called. -/
theorem c7_decorator_require_token_correct (f : M) (ctx : Ctx) (w : World) :
    (tokenRejectSpec ctx w →
      decorator_require_token f ctx w =
        (.error (.InternalServerError "TokenFailure: Missing or invalid token"),
          log w .tokenCheck)) ∧
    (¬ tokenRejectSpec ctx w →
      decorator_require_token f ctx w = f (log w .tokenCheck)) := by
  have hb := tokenReject_bool_eq ctx w
  constructor
  · intro h
    simp only [decorator_require_token, log_session]
    rw [if_pos (hb.mpr h)]
  · intro h
    simp only [decorator_require_token, log_session]
    rw [if_neg (fun hh => h (hb.mp hh))]

/-- Witness for C7: a concrete sessionless tokenless request to a non token
path is rejected with the token failure, and the same request with a session
goes through to the handler. -/
theorem c7_witness :
    decorator_require_token (rawOk (.str "x")) ctx0 wNone =
      (.error (.InternalServerError "TokenFailure: Missing or invalid token"),
        log wNone .tokenCheck) ∧
    decorator_require_token (rawOk (.str "x")) ctx0 w0 =
      rawOk (.str "x") (log w0 .tokenCheck) := by
  constructor
  · exact (c7_decorator_require_token_correct (rawOk (.str "x")) ctx0 wNone).1
      ⟨rfl, rfl, rfl⟩
  · exact (c7_decorator_require_token_correct (rawOk (.str "x")) ctx0 w0).2
      (by simp [tokenRejectSpec, w0])

/-- C9: when the handler is marked cache-invalidating, the invalidation
layer drops the whole cache of the tenant of the request before the wrapped
handler is invoked, unconditionally on entering the call, and adds nothing
after the handler returns; in particular the invalidation has already
happened even when the handler then raises an error. -/
theorem c9_decorator_cache_invalidate_correct (f : M) (ctx : Ctx) (w : World) :
    (decorator_cache_invalidate true f ctx w =
      f (log { w with cache := Cache.invalidate w.cache ctx.request.tid } .invalidate)) ∧
    (∀ e w2,
      f (log { w with cache := Cache.invalidate w.cache ctx.request.tid } .invalidate) =
        (.error e, w2) →
      decorator_cache_invalidate true f ctx w = (.error e, w2)) := by
  refine ⟨rfl, ?_⟩
  intro e w2 hf
  simpa [decorator_cache_invalidate] using hf

/-- Witness for C9: on a concrete world whose cache holds an entry of the
tenant, a handler that raises still runs on the world whose tenant cache was
already dropped, and its error is the outcome. -/
theorem c9_witness :
    decorator_cache_invalidate true (rawErr "boom") ctx0
        { w0 with cache := [((1, "/public", "en"), ("application/json", .str "body"))] } =
      (.error (.raised "boom"),
        log (log { w0 with cache := [] } .invalidate) .handlerRun) := by
  exact (c9_decorator_cache_invalidate_correct (rawErr "boom") ctx0
      { w0 with cache := [((1, "/public", "en"), ("application/json", .str "body"))] }).2
    (.raised "boom") (log (log { w0 with cache := [] } .invalidate) .handlerRun) rfl

/-- C5: for a session of the whistleblower role the rate limiter resets the
window state to (now, 0) when more than 30 seconds have elapsed since the
window start, then increments the counter, and raises NotAuthenticated
exactly when count divided by the elapsed time clamped to at least one
second exceeds 5; the increment lands in the session state even on the
rejected path; sessions of any other role, and requests with no session,
pass through with the session state untouched. -/
theorem c5_decorator_rate_limit_correct (f : M) (ctx : Ctx) (w : World) :
    (∀ s, w.session = some s → s.user_role = "whistleblower" →
      decorator_rate_limit f ctx w =
        (let s1 :=
          if 30 < ctx.now - s.ratelimit_time then
            { s with ratelimit_time := ctx.now, ratelimit_count := 0 }
          else s
         let s2 := { s1 with ratelimit_count := s1.ratelimit_count + 1 }
         let w2 := { log w .rateLimit with session := some s2 }
         if 5 < ((s2.ratelimit_count : ℚ) / max (ctx.now - s2.ratelimit_time) 1) then
           (.error .NotAuthenticated, w2)
         else f w2)) ∧
    (∀ s, w.session = some s → ¬ s.user_role = "whistleblower" →
      decorator_rate_limit f ctx w = f (log w .rateLimit)) ∧
    (w.session = none → decorator_rate_limit f ctx w = f (log w .rateLimit)) := by
  have hcond : ∀ a b : ℚ, (a > b + 30) = (30 < a - b) :=
    fun a b => propext ⟨fun h => by linarith, fun h => by linarith⟩
  refine ⟨?_, ?_, ?_⟩
  · intro s hs hrole
    simp only [decorator_rate_limit, log_session, hs, hrole, hcond, gt_iff_lt]
    rw [if_pos trivial]
  · intro s hs hrole
    simp only [decorator_rate_limit, log_session, hs]
    rw [if_neg hrole]
  · intro hs
    simp only [decorator_rate_limit, log_session, hs]

/-- A concrete whistleblower session inside its window with 10 requests
counted. -/
def sWb : Session :=
  { tid := 1, user_role := "whistleblower", ratelimit_time := 0, ratelimit_count := 10 }

/-- Witness for C5: the concrete eleventh request of a whistleblower inside
the first second of its window is rejected with the counter mutated to 11,
and a concrete admin session passes through untouched. -/
theorem c5_witness :
    decorator_rate_limit (rawOk (.str "x")) ctx0 { w0 with session := some sWb } =
      (.error .NotAuthenticated,
        { session := some { sWb with ratelimit_count := 11 },
          cache := [], respContentType := none, refreshOutcome := none,
          events := [.rateLimit] }) ∧
    decorator_rate_limit (rawOk (.str "x")) ctx0 w0 =
      rawOk (.str "x") (log w0 .rateLimit) := by
  constructor
  · have h := (c5_decorator_rate_limit_correct (rawOk (.str "x")) ctx0
      { w0 with session := some sWb }).1 sWb rfl rfl
    rw [h]
    simp only [ctx0, w0, req0, sWb, log]
    norm_num
  · exact (c5_decorator_rate_limit_correct (rawOk (.str "x")) ctx0 w0).2.1 sAdmin rfl
      (by decide)

/-- Looking up a key right after storing it returns the stored entry. -/
theorem cache_get_set (st : CacheStore) (tid : Nat) (path language : String)
    (ct : String) (body : PyValue) :
    Cache.get (Cache.set st tid path language ct body).2 tid path language =
      some (ct, body) := by
  simp [Cache.get, Cache.set]

/-- C2: on a hit the cache layer returns the stored body verbatim with the
stored content-type set on the response, independent of the handler; on a
miss with a dict or list result it runs the handler, serializes the result
to JSON, sets the content-type to application/json, stores the entry under
the key of the request and returns the stored body; an error raised by the
handler propagates with nothing cached by the layer. -/
theorem c2_decorator_cache_get_correct (f : M) (ctx : Ctx) (w : World) :
    (∀ ct body,
      Cache.get w.cache ctx.request.tid ctx.request.path ctx.request.language =
        some (ct, body) →
      decorator_cache_get f ctx w =
        (.ok body, { log w .cacheLookup with respContentType := some ct })) ∧
    (∀ data w2,
      Cache.get w.cache ctx.request.tid ctx.request.path ctx.request.language = none →
      f (log w .cacheLookup) = (.ok data, w2) →
      isDictOrList data = true →
      decorator_cache_get f ctx w =
        (.ok (.str (jsonDumps data)),
          log { w2 with
                respContentType := some "application/json",
                cache := (Cache.set w2.cache ctx.request.tid ctx.request.path
                  ctx.request.language "application/json" (.str (jsonDumps data))).2 }
            .cacheStore) ∧
      Cache.get (Cache.set w2.cache ctx.request.tid ctx.request.path
          ctx.request.language "application/json" (.str (jsonDumps data))).2
          ctx.request.tid ctx.request.path ctx.request.language =
        some ("application/json", .str (jsonDumps data))) ∧
    (∀ e w2,
      Cache.get w.cache ctx.request.tid ctx.request.path ctx.request.language = none →
      f (log w .cacheLookup) = (.error e, w2) →
      decorator_cache_get f ctx w = (.error e, w2)) := by
  refine ⟨?_, ?_, ?_⟩
  · intro ct body hget
    simp only [decorator_cache_get, log_cache, hget]
  · intro data w2 hget hf hd
    refine ⟨?_, cache_get_set ..⟩
    simp only [decorator_cache_get, log_cache, hget, hf, hd, if_true, Cache.set,
      Option.getD_some]
  · intro e w2 hget hf
    simp only [decorator_cache_get, log_cache, hget, hf]

/-- A concrete world whose cache holds an entry for the request key. -/
def wHit : World :=
  { w0 with cache := [((1, "/public", "en"), ("text/html", .str "cached"))] }

/-- Witness for C2: a concrete hit returns the stored body with the stored
content-type; a concrete miss on an empty list result stores and returns the
serialized JSON body; a concrete handler error propagates uncached. -/
theorem c2_witness :
    decorator_cache_get (rawOk (.list [])) ctx0 wHit =
      (.ok (.str "cached"),
        { log wHit .cacheLookup with respContentType := some "text/html" }) ∧
    decorator_cache_get (rawOk (.list [])) ctx0 w0 =
      (.ok (.str "[]"),
        log { (log (log w0 .cacheLookup) .handlerRun) with
              respContentType := some "application/json",
              cache := [((1, "/public", "en"), ("application/json", .str "[]"))] }
          .cacheStore) ∧
    decorator_cache_get (rawErr "down") ctx0 w0 =
      (.error (.raised "down"), log (log w0 .cacheLookup) .handlerRun) := by
  refine ⟨?_, ?_, ?_⟩
  · exact (c2_decorator_cache_get_correct (rawOk (.list [])) ctx0 wHit).1
      "text/html" (.str "cached") rfl
  · exact ((c2_decorator_cache_get_correct (rawOk (.list [])) ctx0 w0).2.1
      (.list []) (log (log w0 .cacheLookup) .handlerRun) rfl rfl rfl).1
  · exact (c2_decorator_cache_get_correct (rawErr "down") ctx0 w0).2.2
      (.raised "down") (log (log w0 .cacheLookup) .handlerRun) rfl rfl

/-- A concrete world in which the external endpoint-refresh call raises. -/
def wRef : World := { w0 with refreshOutcome := some "refresh failure" }

/-- Counterexample for C8: on a concrete call the wrapped handler returns its
payload, yet the outcome of the refresh layer is the error raised by the
refresh operation, which therefore does replace the result of the handler. -/
theorem c8_counterexample :
    (rawOk (.str "payload") wRef).1 = .ok (.str "payload") ∧
    (decorator_refresh_connection_endpoints (rawOk (.str "payload")) wRef).1 =
      .error (.raised "refresh failure") :=
  ⟨rfl, rfl⟩

/-- C8 amended: the refresh is triggered strictly after the result of the
handler becomes available and the original result is returned unchanged
provided the refresh returns; when the refresh raises, its error replaces
the successful result of the handler; an error of the handler itself
propagates without any refresh. -/
theorem c8_decorator_refresh_correct (f : M) (w : World) :
    (∀ d w2, f w = (.ok d, w2) → w2.refreshOutcome = none →
      decorator_refresh_connection_endpoints f w = (.ok d, log w2 .refresh)) ∧
    (∀ d w2 msg, f w = (.ok d, w2) → w2.refreshOutcome = some msg →
      decorator_refresh_connection_endpoints f w =
        (.error (.raised msg), log w2 .refresh)) ∧
    (∀ e w2, f w = (.error e, w2) →
      decorator_refresh_connection_endpoints f w = (.error e, w2)) := by
  refine ⟨?_, ?_, ?_⟩
  · intro d w2 hf hr
    simp only [decorator_refresh_connection_endpoints, hf, log_refreshOutcome, hr]
  · intro d w2 msg hf hr
    simp only [decorator_refresh_connection_endpoints, hf, log_refreshOutcome, hr]
  · intro e w2 hf
    simp only [decorator_refresh_connection_endpoints, hf]

/-- Witness for C8 amended: concrete runs of the three cases: refresh after a
successful handler returning the payload unchanged, a raising refresh
replacing the payload, and a handler error propagating with no refresh. -/
theorem c8_witness :
    decorator_refresh_connection_endpoints (rawOk (.str "payload")) w0 =
      (.ok (.str "payload"), log (log w0 .handlerRun) .refresh) ∧
    decorator_refresh_connection_endpoints (rawOk (.str "payload")) wRef =
      (.error (.raised "refresh failure"), log (log wRef .handlerRun) .refresh) ∧
    decorator_refresh_connection_endpoints (rawErr "down") w0 =
      (.error (.raised "down"), log w0 .handlerRun) := by
  refine ⟨?_, ?_, ?_⟩
  · exact (c8_decorator_refresh_correct (rawOk (.str "payload")) w0).1
      (.str "payload") (log w0 .handlerRun) rfl rfl
  · exact (c8_decorator_refresh_correct (rawOk (.str "payload")) wRef).2.1
      (.str "payload") (log wRef .handlerRun) "refresh failure" rfl rfl
  · exact (c8_decorator_refresh_correct (rawErr "down") w0).2.2
      (.raised "down") (log w0 .handlerRun) rfl

/-- A context carrying the given current time, for driving the rate limiter
over a sequence of requests. -/
def mkCtx (now : ℚ) : Ctx := { request := req0, token := false, now := now }

/-- One request through the rate limiter with a trivial inner handler:
returns the updated world and whether the request was rejected. -/
def rateLimitStep (w : World) (now : ℚ) : World × Bool :=
  match decorator_rate_limit (fun w => (.ok (.str "ok"), w)) (mkCtx now) w with
  | (.ok _, w2) => (w2, false)
  | (.error _, w2) => (w2, true)

/-- A sequence of requests at the given times through the rate limiter:
returns the final world and the per-request rejection flags. -/
def rateLimitResults (w : World) (times : List ℚ) : World × List Bool :=
  match times with
  | [] => (w, [])
  | t :: ts =>
    let p := rateLimitStep w t
    let q := rateLimitResults p.1 ts
    (q.1, p.2 :: q.2)

/-- One whistleblower request inside the first second of the current window:
no reset fires, the period clamps to one second, and the request is rejected
exactly when the incremented counter exceeds 5. -/
theorem rateLimitStep_in_window (w : World) (s : Session) (t : ℚ)
    (hs : w.session = some s) (hrole : s.user_role = "whistleblower")
    (h1 : s.ratelimit_time ≤ t) (h2 : t ≤ s.ratelimit_time + 1) :
    rateLimitStep w t =
      ({ log w .rateLimit with
          session := some { s with ratelimit_count := s.ratelimit_count + 1 } },
        decide (5 < s.ratelimit_count + 1)) := by
  have hreset : ¬ (t > s.ratelimit_time + 30) := by simp only [gt_iff_lt, not_lt]; linarith
  have hmax : max (t - s.ratelimit_time) 1 = 1 := max_eq_right (by linarith)
  simp only [rateLimitStep, decorator_rate_limit, mkCtx, log_session, hs, hrole,
    if_neg hreset, hmax, div_one]
  rw [if_pos trivial]
  by_cases hrate : (5 : ℚ) < ((s.ratelimit_count + 1 : ℕ) : ℚ)
  · rw [if_pos (by exact_mod_cast hrate)]
    simp only [decide_eq_true (by exact_mod_cast hrate : 5 < s.ratelimit_count + 1)]
  · rw [if_neg (by exact_mod_cast hrate)]
    simp only [decide_eq_false (by exact_mod_cast hrate : ¬ 5 < s.ratelimit_count + 1)]

/-- A run of whistleblower requests all inside the first second of the
current window rejects exactly the requests whose cumulative count exceeds
5. -/
theorem rateLimitResults_in_window (times : List ℚ) :
    ∀ (w : World) (s : Session), w.session = some s →
      s.user_role = "whistleblower" →
      (∀ t ∈ times, s.ratelimit_time ≤ t ∧ t ≤ s.ratelimit_time + 1) →
      (rateLimitResults w times).2 =
        (List.range times.length).map
          (fun i => decide (5 < s.ratelimit_count + i + 1)) := by
  induction times with
  | nil => intro w s _ _ _; rfl
  | cons t ts ih =>
    intro w s hs hrole hb
    have hstep := rateLimitStep_in_window w s t hs hrole
      (hb t (by simp)).1 (hb t (by simp)).2
    have ih2 := ih ({ log w .rateLimit with
        session := some { s with ratelimit_count := s.ratelimit_count + 1 } })
      { s with ratelimit_count := s.ratelimit_count + 1 } rfl hrole
      (fun u hu => (hb u (by simp [hu])))
    simp only [rateLimitResults, hstep, ih2, List.length_cons, List.range_succ_eq_map,
      List.map_cons, List.map_map]
    congr 1
    simp only [List.map_inj_left, Function.comp_apply, decide_eq_decide,
      List.mem_range]
    intro a ha
    omega

/-- A run of requests on a session of any role other than whistleblower is
never rejected by the rate limiter. -/
theorem rateLimitResults_other_role (times : List ℚ) :
    ∀ (w : World) (s : Session), w.session = some s →
      ¬ s.user_role = "whistleblower" →
      (rateLimitResults w times).2 = List.replicate times.length false := by
  induction times with
  | nil => intro w s _ _; rfl
  | cons t ts ih =>
    intro w s hs hrole
    have hstep : rateLimitStep w t = (log w .rateLimit, false) := by
      simp only [rateLimitStep, decorator_rate_limit, log_session, hs, if_neg hrole]
    simp only [rateLimitResults, hstep, List.length_cons, List.replicate_succ]
    exact congrArg _ (ih (log w .rateLimit) s (by simp [hs]) hrole)

/-- The burst of request times used to refute C6: a window reset at time 0,
then six requests inside the one-second sub-window from 20 to 20.5 of the
same 30-second window. -/
def c6Times : List ℚ := [0, 20, 201/10, 202/10, 203/10, 204/10, 205/10]

/-- A whistleblower session whose window is stale at time 0, forcing a
reset on the first request. -/
def sWbStale : Session :=
  { tid := 1, user_role := "whistleblower", ratelimit_time := -100, ratelimit_count := 0 }

/-- Counterexample for C6: six whistleblower requests inside a one-second
sub-window placed 20 seconds after the window reset are all accepted, so a
burst of more than 5 requests in a 1-second sub-window is not rejected when
the sub-window falls late in the 30-second window. -/
theorem c6_counterexample :
    (∀ t ∈ c6Times.drop 1, (20:ℚ) ≤ t ∧ t ≤ 20 + 1) ∧
    (rateLimitResults { w0 with session := some sWbStale } c6Times).2 =
      [false, false, false, false, false, false, false] := by
  constructor
  · intro t ht
    fin_cases ht <;> constructor <;> norm_num
  · norm_num [c6Times, rateLimitResults, rateLimitStep, decorator_rate_limit, mkCtx,
      log, w0, req0, sWbStale]

/-- C6 (amended): a whistleblower session submitting requests within the
first second after a window reset is rejected exactly from the request that
pushes the in-window count above 5 onward, so more than 5 requests in that
first one-second sub-window trigger rejection; sessions of every other role
are never rejected by this layer regardless of volume. -/
theorem c6_rate_limit_burst (s : Session) (times : List ℚ) :
    (s.user_role = "whistleblower" → s.ratelimit_count = 0 →
      (∀ t ∈ times, s.ratelimit_time ≤ t ∧ t ≤ s.ratelimit_time + 1) →
      (rateLimitResults { w0 with session := some s } times).2 =
        (List.range times.length).map (fun i => decide (5 < i + 1))) ∧
    (¬ s.user_role = "whistleblower" →
      (rateLimitResults { w0 with session := some s } times).2 =
        List.replicate times.length false) := by
  constructor
  · intro hrole hcount hb
    have h := rateLimitResults_in_window times { w0 with session := some s } s rfl hrole hb
    simp only [h, hcount, Nat.zero_add]
  · intro hrole
    exact rateLimitResults_other_role times _ s rfl hrole

/-- A fresh whistleblower session right after a window reset at time 0. -/
def sWb0 : Session :=
  { tid := 1, user_role := "whistleblower", ratelimit_time := 0, ratelimit_count := 0 }

/-- Witness for C6 amended: seven concrete whistleblower requests inside the
first second after a reset are accepted five times and then rejected, and a
concrete admin session is never rejected. -/
theorem c6_witness :
    (rateLimitResults { w0 with session := some sWb0 }
        [0, 1/10, 2/10, 3/10, 4/10, 5/10, 6/10]).2 =
      [false, false, false, false, false, true, true] ∧
    (rateLimitResults w0 [0, 1/10, 2/10]).2 = [false, false, false] := by
  constructor
  · have hb : ∀ t ∈ ([0, 1/10, 2/10, 3/10, 4/10, 5/10, 6/10] : List ℚ),
        sWb0.ratelimit_time ≤ t ∧ t ≤ sWb0.ratelimit_time + 1 := by
      intro t ht
      fin_cases ht <;> constructor <;> norm_num [sWb0]
    have h := (c6_rate_limit_burst sWb0
      [0, 1/10, 2/10, 3/10, 4/10, 5/10, 6/10]).1 rfl rfl hb
    rw [h]
    decide
  · exact (c6_rate_limit_burst sAdmin [0, 1/10, 2/10]).2 (by decide)

/-- One concurrent GET request through the cache layer: its key and the
value its handler will produce if invoked. -/
structure CacheReq where
  tid : Nat
  path : String
  language : String
  data : PyValue

/-- The progress of one request through decorator_cache_get, split at the
single suspension point of the code: between the miss (lines 66-68, where
the handler is invoked as a deferred) and the store callback (lines 70-76,
which runs once the handler result is available). -/
inductive ReqPhase where
  | toStart
  | awaitingHandler
  | finished (body : PyValue)

/-- The shared state of several in-flight requests over one cache store,
with a counter of handler invocations. -/
structure ConcState where
  cache : CacheStore
  procs : List (CacheReq × ReqPhase)
  invocations : Nat

/-- One atomic segment of process i, mirroring decorator_cache_get: from
toStart, perform the lookup of line 66 and either finish with the stored
body (hit) or invoke the handler and suspend (miss); from awaitingHandler,
run the callback of lines 70-76: serialize a dict or list result, store the
entry and finish with the stored body.  These probe requests set no
content-type header of their own, so the stored content-type is the
application/json default of line 75. -/
def concStep (st : ConcState) (i : Nat) : ConcState :=
  match st.procs.get? i with
  | some (r, .toStart) =>
    match Cache.get st.cache r.tid r.path r.language with
    | some c => { st with procs := st.procs.set i (r, .finished c.2) }
    | none =>
      { st with procs := st.procs.set i (r, .awaitingHandler),
                invocations := st.invocations + 1 }
  | some (r, .awaitingHandler) =>
    let data := if isDictOrList r.data then PyValue.str (jsonDumps r.data) else r.data
    let res := Cache.set st.cache r.tid r.path r.language "application/json" data
    { st with cache := res.2, procs := st.procs.set i (r, .finished res.1.2) }
  | _ => st

/-- Run a scheduled interleaving of atomic segments. -/
def runSched (st : ConcState) (sched : List Nat) : ConcState :=
  sched.foldl concStep st

/-- Two requests for the same key over an initially empty cache. -/
def concInit (d0 d1 : PyValue) : ConcState :=
  { cache := [],
    procs := [(⟨1, "/public", "en", d0⟩, .toStart), (⟨1, "/public", "en", d1⟩, .toStart)],
    invocations := 0 }

/-- Counterexample for C3: under the interleaving in which both requests
pass the lookup before either stores, both invoke the handler: two handler
invocations for one key within one invalidation epoch (no invalidation
occurs anywhere in the run), refuting at-most-one-computation per key. -/
theorem c3_counterexample :
    (runSched (concInit (.str "a") (.str "b")) [0, 1, 0, 1]).invocations = 2 ∧
    ¬ ((runSched (concInit (.str "a") (.str "b")) [0, 1, 0, 1]).invocations ≤ 1) := by
  refine ⟨rfl, ?_⟩
  intro h
  simp [runSched, concInit, concStep, Cache.get, Cache.set] at h

/-- C3 (amended): the cache layer does not serialize concurrent population
of a key (see the counterexample); only non-overlapping requests share one
computation: when the second request starts after the first has stored its
result, the handler is invoked exactly once and the second request finishes
with the body stored by the first. -/
theorem c3_sequential_single_invocation (d0 d1 : PyValue) :
    (runSched (concInit d0 d1) [0, 0, 1]).invocations = 1 ∧
    (runSched (concInit d0 d1) [0, 0, 1]).procs.get? 1 =
      some (⟨1, "/public", "en", d1⟩,
        .finished (if isDictOrList d0 then PyValue.str (jsonDumps d0) else d0)) := by
  constructor
  · simp [runSched, concInit, concStep, Cache.get, Cache.set]
  · simp [runSched, concInit, concStep, Cache.get, Cache.set]

/-- C10: with the api cache setting disabled, decorate_method attaches only
the authorization layer plus, for methods other than get and options or
handlers with require_token, the token gate and rate limiter; the cache,
invalidation and refresh layers are never attached, whatever the values of
the cache_resource, invalidate_cache and refresh flags of the handler. -/
theorem c10_decorate_method_cache_disabled (h : HandlerMeta) (method : String)
    (raw : M) (ctx : Ctx) :
    decorate_method false h method raw ctx =
      (if !((["get", "options"] : List String).contains method) || h.require_token then
        decorator_rate_limit
          (decorator_require_token
            (decorator_authentication raw (normalizeRoles h.check_roles) ctx) ctx) ctx
      else decorator_authentication raw (normalizeRoles h.check_roles) ctx) := by
  rfl

/-- The rate limiter passes any request through untouched when the session
role is not whistleblower. -/
theorem rate_limit_pass (f : M) (ctx : Ctx) (w : World) (s : Session)
    (hs : w.session = some s) (hrole : ¬ s.user_role = "whistleblower") :
    decorator_rate_limit f ctx w = f (log w .rateLimit) := by
  simp only [decorator_rate_limit, log_session, hs, if_neg hrole]

/-- The token gate passes any request with a session through. -/
theorem token_pass (f : M) (ctx : Ctx) (w : World) (hs : w.session.isNone = false) :
    decorator_require_token f ctx w = f (log w .tokenCheck) := by
  simp only [decorator_require_token, log_session, hs, Bool.false_and,
    Bool.false_eq_true, if_false]

/-- Authorization passes a session of the tenant of the request whose role
is directly in the roles set. -/
theorem auth_pass (f : M) (roles : List String) (ctx : Ctx) (w : World) (s : Session)
    (hs : w.session = some s) (htid : s.tid = ctx.request.tid)
    (hmem : roles.contains s.user_role = true) :
    decorator_authentication f roles ctx w = f (log w .authCheck) := by
  simp only [decorator_authentication, log_session, hs, htid, hmem, Bool.or_true,
    Bool.and_true, decide_eq_true_eq]
  rw [if_pos]
  simp

/-- C1 (amended): decorate_method nests the enabled layers with the
caching, invalidation and refresh layers applied directly around the raw
handler, authorization outside them, and the token gate and rate limiter
outermost; request-side the layers therefore evaluate in the order rate
limit, token check, authorization, then cache lookup (GET) or cache
invalidation (non-GET), then the raw handler, with the cache store and the
endpoint refresh side effects running once the handler result is
available. -/
theorem c1_pipeline_order (h : HandlerMeta) (ctx : Ctx) (s : Session) (v : PyValue)
    (cache : CacheStore) (ro : Option String) :
    (∀ raw, h.cache_resource = true → h.require_token = true →
      decorate_method true h "get" raw ctx =
        decorator_rate_limit
          (decorator_require_token
            (decorator_authentication (decorator_cache_get raw ctx)
              (normalizeRoles h.check_roles) ctx) ctx) ctx) ∧
    (∀ raw, h.invalidate_cache = true → h.refresh_connection_endpoints = true →
      decorate_method true h "post" raw ctx =
        decorator_rate_limit
          (decorator_require_token
            (decorator_authentication
              (decorator_refresh_connection_endpoints
                (decorator_cache_invalidate h.invalidate_cache raw ctx))
              (normalizeRoles h.check_roles) ctx) ctx) ctx) ∧
    (h.check_roles = .set ["admin"] → h.cache_resource = true → h.require_token = true →
      s.user_role = "admin" → s.tid = ctx.request.tid →
      Cache.get cache ctx.request.tid ctx.request.path ctx.request.language = none →
      ((decorate_method true h "get" (rawOk v) ctx)
          { session := some s, cache := cache, respContentType := none,
            refreshOutcome := ro, events := [] }).2.events =
        [.rateLimit, .tokenCheck, .authCheck, .cacheLookup, .handlerRun, .cacheStore]) ∧
    (h.check_roles = .set ["admin"] → h.invalidate_cache = true →
      h.refresh_connection_endpoints = true →
      s.user_role = "admin" → s.tid = ctx.request.tid →
      ((decorate_method true h "post" (rawOk v) ctx)
          { session := some s, cache := cache, respContentType := none,
            refreshOutcome := ro, events := [] }).2.events =
        [.rateLimit, .tokenCheck, .authCheck, .invalidate, .handlerRun, .refresh]) := by
  have hA : ∀ raw, h.cache_resource = true → h.require_token = true →
      decorate_method true h "get" raw ctx =
        decorator_rate_limit
          (decorator_require_token
            (decorator_authentication (decorator_cache_get raw ctx)
              (normalizeRoles h.check_roles) ctx) ctx) ctx := by
    intro raw hc hr
    simp [decorate_method, hc, hr]
  have hB : ∀ raw, h.invalidate_cache = true → h.refresh_connection_endpoints = true →
      decorate_method true h "post" raw ctx =
        decorator_rate_limit
          (decorator_require_token
            (decorator_authentication
              (decorator_refresh_connection_endpoints
                (decorator_cache_invalidate h.invalidate_cache raw ctx))
              (normalizeRoles h.check_roles) ctx) ctx) ctx := by
    intro raw hi hre
    simp [decorate_method, hi, hre]
  refine ⟨hA, hB, ?_, ?_⟩
  · intro hroles hc hr hrole htid hmiss
    rw [hA (rawOk v) hc hr]
    rw [rate_limit_pass _ _ _ s rfl (by rw [hrole]; decide),
        token_pass _ _ _ (by simp),
        auth_pass _ _ _ _ s rfl htid (by rw [hroles, hrole]; rfl)]
    cases hv : isDictOrList v <;>
      simp [decorator_cache_get, hmiss, rawOk, hv, Cache.set, log]
  · intro hroles hi hre hrole htid
    rw [hB (rawOk v) hi hre]
    rw [rate_limit_pass _ _ _ s rfl (by rw [hrole]; decide),
        token_pass _ _ _ (by simp),
        auth_pass _ _ _ _ s rfl htid (by rw [hroles, hrole]; rfl)]
    cases ro <;>
      simp [decorator_refresh_connection_endpoints, decorator_cache_invalidate, hi,
        rawOk, log]

/-- The handler metadata of the C1 counterexample: a cacheable GET for
admins requiring a token. -/
def hC : HandlerMeta :=
  { check_roles := .set ["admin"], cache_resource := true, invalidate_cache := false,
    refresh_connection_endpoints := false, require_token := true }

/-- The world of the C1 counterexample: a whistleblower session together
with a cached entry for the key of the request. -/
def wC : World := { wHit with session := some sWb0 }

/-- Counterexample for C1: on a concrete cached GET with an unauthorized
session, the pipeline built by the source raises NotAuthenticated, while
the composition stated by the claim, authorization applied directly around
the raw handler with the cache layer outside it, returns the cached body
without any authorization check, so the two composition orders differ and
authorization is not innermost-adjacent. -/
theorem c1_counterexample :
    (decorate_method true hC "get" (rawOk (.str "fresh")) ctx0 wC).1 =
      .error .NotAuthenticated ∧
    ((decorator_rate_limit
        (decorator_require_token
          (decorator_cache_get
            (decorator_authentication (rawOk (.str "fresh"))
              (normalizeRoles hC.check_roles) ctx0) ctx0) ctx0) ctx0) wC).1 =
      .ok (.str "cached") := by
  constructor
  · norm_num [decorate_method, hC, decorator_rate_limit, decorator_require_token,
      decorator_authentication, decorator_cache_get, normalizeRoles, ctx0, req0,
      wC, wHit, w0, sWb0, Cache.get, log]
    rw [if_neg (by decide)]
  · norm_num [decorator_rate_limit, decorator_require_token, decorator_cache_get,
      decorator_authentication, normalizeRoles, hC, ctx0, req0, wC, wHit, w0, sWb0,
      Cache.get, log]

/-- Handler metadata of a mutating endpoint with invalidation and refresh
enabled. -/
def hM : HandlerMeta :=
  { check_roles := .set ["admin"], cache_resource := false, invalidate_cache := true,
    refresh_connection_endpoints := true, require_token := false }

/-- Witness for C1 amended: the concrete cacheable GET pipeline equals the
composition with the cache layer innermost, and concrete full runs produce
the evaluation orders stated, for a GET miss and for a mutating POST. -/
theorem c1_witness :
    (decorate_method true hC "get" (rawOk (.str "x")) ctx0 =
      decorator_rate_limit
        (decorator_require_token
          (decorator_authentication (decorator_cache_get (rawOk (.str "x")) ctx0)
            (normalizeRoles hC.check_roles) ctx0) ctx0) ctx0) ∧
    ((decorate_method true hC "get" (rawOk (.str "x")) ctx0
        { session := some sAdmin, cache := [], respContentType := none,
          refreshOutcome := none, events := [] }).2.events =
      [.rateLimit, .tokenCheck, .authCheck, .cacheLookup, .handlerRun, .cacheStore]) ∧
    ((decorate_method true hM "post" (rawOk (.str "x")) ctx0
        { session := some sAdmin, cache := [], respContentType := none,
          refreshOutcome := none, events := [] }).2.events =
      [.rateLimit, .tokenCheck, .authCheck, .invalidate, .handlerRun, .refresh]) := by
  refine
    ⟨(c1_pipeline_order hC ctx0 sAdmin (.str "x") [] none).1 (rawOk (.str "x")) rfl rfl,
     (c1_pipeline_order hC ctx0 sAdmin (.str "x") [] none).2.2.1 rfl rfl rfl rfl rfl rfl,
     (c1_pipeline_order hM ctx0 sAdmin (.str "x") [] none).2.2.2 rfl rfl rfl rfl rfl⟩
